import Mathlib

/-!
Verification of the two automation scripts in this repository
(PlaywrightF.py, a Playwright search scraper, and Gmail_demo.py, a
PyAutoGUI mail sender) against their natural-language specification.

The pure logic fragments of the Python source are embedded shallowly:
  - result records become a structure of two strings;
  - page/DOM interaction is abstracted as data describing, for each
    selector and retry attempt, what the corresponding Playwright calls
    would return (including the possibility that they raise, modelled
    with Except Unit);
  - the control flow of each Python function is translated line by line
    into a Lean function over that data.
-/

namespace GoogleScrape

/-- A scraped result record, as built at PlaywrightF.py line 76:
results.append of a dict with a title field and a link field. -/
structure SearchResult where
  title : String
  link : String
deriving DecidableEq, Repr

/-- The final dedupe loop of main, PlaywrightF.py lines 207-213:
starts with an empty unique list and an empty seen set; for each record r,
reads its link field, and appends r (recording the link as seen) exactly
when the link is a non-empty string not seen before.  The seen set is
modelled as the list of links already taken, membership being all that the
Python set is used for. -/
def dedupeAux : List SearchResult → List String → List SearchResult
  | [], _ => []
  | r :: rs, seen =>
    if r.link ≠ "" ∧ r.link ∉ seen then
      r :: dedupeAux rs (r.link :: seen)
    else
      dedupeAux rs seen

/-- Entry point of the final dedupe step in main (seen starts empty). -/
def finalDedupe (results : List SearchResult) : List SearchResult :=
  dedupeAux results []

theorem dedupeAux_length_le (l : List SearchResult) (seen : List String) :
    (dedupeAux l seen).length ≤ l.length := by
  induction l generalizing seen with
  | nil => simp [dedupeAux]
  | cons r rs ih =>
    simp only [dedupeAux]
    by_cases h : r.link ≠ "" ∧ r.link ∉ seen
    · simp only [if_pos h, List.length_cons]
      exact Nat.succ_le_succ (ih _)
    · simp only [if_neg h, List.length_cons]
      exact Nat.le_succ_of_le (ih _)

theorem dedupeAux_sublist (l : List SearchResult) (seen : List String) :
    (dedupeAux l seen).Sublist l := by
  induction l generalizing seen with
  | nil => simp [dedupeAux]
  | cons r rs ih =>
    simp only [dedupeAux]
    by_cases h : r.link ≠ "" ∧ r.link ∉ seen
    · simp only [if_pos h]
      exact List.Sublist.cons₂ r (ih _)
    · simp only [if_neg h]
      exact List.Sublist.cons r (ih _)

theorem dedupeAux_mem_link (l : List SearchResult) (seen : List String)
    (r : SearchResult) (hr : r ∈ dedupeAux l seen) :
    r.link ≠ "" ∧ r.link ∉ seen := by
  induction l generalizing seen with
  | nil => simp [dedupeAux] at hr
  | cons c cs ih =>
    simp only [dedupeAux] at hr
    by_cases h : c.link ≠ "" ∧ c.link ∉ seen
    · rw [if_pos h] at hr
      rcases List.mem_cons.mp hr with rfl | hr'
      · exact h
      · have := ih _ hr'
        exact ⟨this.1, fun hm => this.2 (List.mem_cons_of_mem _ hm)⟩
    · rw [if_neg h] at hr
      exact ih _ hr

theorem dedupeAux_links_nodup (l : List SearchResult) (seen : List String) :
    ((dedupeAux l seen).map SearchResult.link).Nodup := by
  induction l generalizing seen with
  | nil => simp [dedupeAux]
  | cons c cs ih =>
    simp only [dedupeAux]
    by_cases h : c.link ≠ "" ∧ c.link ∉ seen
    · rw [if_pos h]
      simp only [List.map_cons, List.nodup_cons]
      refine ⟨?_, ih _⟩
      intro hmem
      rcases List.mem_map.mp hmem with ⟨r, hr, hlink⟩
      have := dedupeAux_mem_link _ _ _ hr
      exact this.2 (hlink ▸ List.mem_cons_self _ _)
    · rw [if_neg h]
      exact ih _

theorem dedupeAux_mem_of_link (l : List SearchResult) (seen : List String)
    (s : String) (hs : s ≠ "") (hseen : s ∉ seen)
    (hin : s ∈ l.map SearchResult.link) :
    s ∈ (dedupeAux l seen).map SearchResult.link := by
  induction l generalizing seen with
  | nil => simp at hin
  | cons c cs ih =>
    simp only [List.map_cons, List.mem_cons] at hin
    simp only [dedupeAux]
    by_cases h : c.link ≠ "" ∧ c.link ∉ seen
    · rw [if_pos h]
      simp only [List.map_cons, List.mem_cons]
      rcases hin with rfl | hin'
      · exact Or.inl rfl
      · by_cases hcl : s = c.link
        · exact Or.inl hcl
        · exact Or.inr (ih (c.link :: seen)
            (fun hmem => by
              rcases List.mem_cons.mp hmem with h1 | h1
              · exact hcl h1
              · exact hseen h1) hin')
    · rw [if_neg h]
      rcases hin with rfl | hin'
      · push_neg at h
        by_cases hce : c.link = ""
        · exact absurd hce hs
        · exact absurd (h hce) hseen
      · exact ih seen hseen hin'

theorem dedupeAux_first_occurrence (l : List SearchResult) (seen : List String)
    (r : SearchResult) (hr : r ∈ dedupeAux l seen) :
    ∃ l₁ l₂, l = l₁ ++ r :: l₂ ∧ ∀ x ∈ l₁, x.link ≠ r.link := by
  induction l generalizing seen with
  | nil => simp [dedupeAux] at hr
  | cons c cs ih =>
    simp only [dedupeAux] at hr
    by_cases h : c.link ≠ "" ∧ c.link ∉ seen
    · rw [if_pos h] at hr
      rcases List.mem_cons.mp hr with rfl | hr'
      · exact ⟨[], cs, rfl, by simp⟩
      · rcases ih _ hr' with ⟨l₁, l₂, heq, hne⟩
        refine ⟨c :: l₁, l₂, by rw [heq]; rfl, ?_⟩
        intro x hx
        rcases List.mem_cons.mp hx with rfl | hx'
        · have hrl := dedupeAux_mem_link _ _ _ hr'
          intro hc
          exact hrl.2 (hc ▸ List.mem_cons_self _ _)
        · exact hne x hx'
    · rw [if_neg h] at hr
      rcases ih _ hr with ⟨l₁, l₂, heq, hne⟩
      refine ⟨c :: l₁, l₂, by rw [heq]; rfl, ?_⟩
      intro x hx
      rcases List.mem_cons.mp hx with rfl | hx'
      · push_neg at h
        have hrl := dedupeAux_mem_link _ _ _ hr
        by_cases hce : x.link = ""
        · exact fun hc => hrl.1 (hc ▸ hce)
        · exact fun hc => hrl.2 (hc ▸ h hce)
      · exact hne x hx'

/-- MAX_RETRIES, PlaywrightF.py line 12. -/
def MAX_RETRIES : Nat := 2

/-- Drop leading whitespace characters from a character list. -/
def stripChars : List Char → List Char
  | [] => []
  | c :: cs => if c.isWhitespace then stripChars cs else c :: cs

/-- The Python str.strip used on extracted titles (lines 71 and 73):
remove whitespace from both ends of the string. -/
def pyStrip (s : String) : String :=
  String.mk ((stripChars ((stripChars s.toList).reverse)).reverse)

/-- Abstraction of one DOM element matched by a selector (loc.nth i).
Each field records what the corresponding Playwright call returns for
this element, with Except.error modelling a raised exception:
  - h3Text : a.locator of h3, then inner_text (line 71);
  - ownText : a.inner_text, the fallback (line 73);
  - href : a.get_attribute of href, which may return None (line 74). -/
structure Element where
  h3Text : Except Unit String
  ownText : Except Unit String
  href : Except Unit (Option String)

/-- The body of the per-element try block, PlaywrightF.py lines 66-78:
take the stripped h3 text, falling back to the stripped element text if
the h3 lookup raises (if that raises too, the outer per-element handler
continues to the next element); read the href attribute, substituting ""
for None; append a record exactly when both title and href are non-empty.
Returns some record when one is appended, none when the element
contributes nothing (field missing or empty, or an extraction raised). -/
def extractResult (e : Element) : Option SearchResult :=
  let titleRes : Option String :=
    match e.h3Text with
    | .ok t => some (pyStrip t)
    | .error _ =>
      match e.ownText with
      | .ok t => some (pyStrip t)
      | .error _ => none
  match titleRes with
  | none => none
  | some title =>
    match e.href with
    | .error _ => none
    | .ok h =>
      let href := h.getD ""
      if title ≠ "" ∧ href ≠ "" then some ⟨title, href⟩ else none

/-- Outcome of one retry attempt on one selector, lines 60-90:
either the outer try raises (the retry path, line 84), or
safe_wait_for_selector returns false (break to next selector, line 62),
or the selector is found and loc yields a list of elements whose length
is loc.count (lines 63-64). -/
inductive AttemptOutcome where
  | raises
  | waitFailed
  | found (elems : List Element)

/-- The retry loop, lines 59-90: attempts run in order 0, 1, ...,
MAX_RETRIES - 1; a raising attempt is retried while attempts remain and
otherwise abandoned; the first non-raising attempt settles the selector
(its outcome is acted on, then the loop breaks or returns). -/
def firstSettledAux (att : Nat → AttemptOutcome) : Nat → Nat → Option AttemptOutcome
  | _, 0 => none
  | i, fuel + 1 =>
    match att i with
    | .raises => firstSettledAux att (i + 1) fuel
    | o => some o

def firstSettled (att : Nat → AttemptOutcome) : Option AttemptOutcome :=
  firstSettledAux att 0 MAX_RETRIES

/-- The selector loop of collect_search_results, lines 57-91, with the
page modelled as a function from selector string and attempt index to an
AttemptOutcome.  For a settled found outcome with element list elems:
count = elems.length, the element loop runs min count (max_items - len)
times (line 65, an empty range when capacity is exhausted, matching the
empty Python range on a non-positive bound), appending per extractResult;
then the function returns early when len has reached max_items (line 80)
and otherwise breaks to the next selector.  A raise-exhausted or
wait-failed selector contributes nothing. -/
def collectGo (pageAt : String → Nat → AttemptOutcome) :
    List String → Nat → List SearchResult → List SearchResult
  | [], _, results => results
  | sel :: rest, max_items, results =>
    match firstSettled (pageAt sel) with
    | some (.found elems) =>
      let k := min elems.length (max_items - results.length)
      let results' := results ++ (elems.take k).filterMap extractResult
      if max_items ≤ results'.length then results'
      else collectGo pageAt rest max_items results'
    | _ => collectGo pageAt rest max_items results

/-- collect_search_results, PlaywrightF.py lines 54-91: results starts
empty. -/
def collect_search_results (pageAt : String → Nat → AttemptOutcome)
    (selector_list : List String) (max_items : Nat) : List SearchResult :=
  collectGo pageAt selector_list max_items []

/-- The merge-dedup loop of main, lines 200-204: existing_links is the
set of links of the primary results, computed once before the loop; each
news result whose link is not in that set is appended.  The set is never
updated inside the loop, which the append-filter form makes explicit. -/
def mergeNews (results news_results : List SearchResult) : List SearchResult :=
  results ++ news_results.filter
    (fun r => decide (r.link ∉ results.map SearchResult.link))

/-- The claim that each appended news entry has a link absent from
everything placed before it in the merged list (primary results and
earlier appended news entries alike). -/
def mergedNoLaterDup (results news_results : List SearchResult) : Prop :=
  ∀ i : Fin (mergeNews results news_results).length,
    results.length ≤ i.val →
    ((mergeNews results news_results).get i).link ∉
      (((mergeNews results news_results).take i.val).map SearchResult.link)

/-- The news selector list of main, lines 194-198. -/
def news_selectors : List String :=
  ["article h3 a", "div.SoaBEf a", "div.NiLAwe a"]

/-- An apostrophe character, kept out of string literals. -/
def apos : String := String.singleton (Char.ofNat 39)

/-- The primary selector list of main, lines 181-187. -/
def selectors : List String :=
  ["div.yuRUbf > a", "div.g a", "h3 > a", "article h3 a",
   "a[href^=" ++ apos ++ "http" ++ apos ++ "]"]

/-- State main consults after the primary collection: whether
try_click_news_tab succeeds (lines 93-105, abstracted to its boolean
result), and the page state the second collection would run against. -/
structure NewsPhase where
  clickOk : Bool
  newsPage : String → Nat → AttemptOutcome

/-- The secondary-source augmentation step of main, lines 190-204:
when the primary results number fewer than 6, the News tab is attempted;
on a successful click the news selectors are collected with
max_items = 12 and merged by mergeNews.  The boolean records whether the
augmentation branch ran at all. -/
def mainAugment (results : List SearchResult) (np : NewsPhase) :
    List SearchResult × Bool :=
  if results.length < 6 then
    (if np.clickOk then
      mergeNews results (collect_search_results np.newsPage news_selectors 12)
    else results, true)
  else (results, false)

/-- Boolean infix test on character lists: pat occurs contiguously in s.
Models the Python membership test of one string in another. -/
def listIsInfix (pat : List Char) : List Char → Bool
  | [] => pat.isEmpty
  | c :: cs => pat.isPrefixOf (c :: cs) || listIsInfix pat cs

def strContains (s pat : String) : Bool :=
  listIsInfix pat.toList s.toList

/-- The challenge-path URL marker checked at PlaywrightF.py line 19. -/
def challengeMarker : String := "/" ++ "sorry" ++ "/"

/-- Abstraction of a page handle as seen by is_captcha_page: what each
inspection returns, with Except.error modelling a raised exception.
  - url : page.url, which may be None (line 18 substitutes "");
  - robotCount : count of the locator for the robot challenge phrase
    (line 22);
  - trafficCount : count of the locator for the unusual-traffic phrase
    (line 24). -/
structure CaptchaPage where
  url : Except Unit (Option String)
  robotCount : Except Unit Nat
  trafficCount : Except Unit Nat

/-- is_captcha_page, PlaywrightF.py lines 15-29: inside a try block,
read the URL (None becomes ""); return true when it contains the
challenge marker; otherwise return true when either phrase locator has a
positive count; any exception in the block is caught and false is
returned; false is also returned when every test fails. -/
def is_captcha_page (p : CaptchaPage) : Bool :=
  match p.url with
  | .error _ => false
  | .ok u =>
    let url := u.getD ""
    if strContains url challengeMarker then true
    else
      match p.robotCount with
      | .error _ => false
      | .ok n =>
        if n > 0 then true
        else
          match p.trafficCount with
          | .error _ => false
          | .ok m => if m > 0 then true else false

/-- Outcome of prompt_manual_solve: either control returns to the caller
or the process terminates with an exit code. -/
inductive PromptResult where
  | resumed
  | exited (code : Nat)
deriving DecidableEq, Repr

/-- prompt_manual_solve, PlaywrightF.py lines 31-42: block on input();
a KeyboardInterrupt (modelled as Except.error) leads to sys.exit 1,
normal acknowledgment returns. -/
def prompt_manual_solve (inputRes : Except Unit Unit) : PromptResult :=
  match inputRes with
  | .ok _ => .resumed
  | .error _ => .exited 1

end GoogleScrape

namespace GmailDemo

/-- One statement of Gmail_demo.py, in source order.  Each pyautogui or
webbrowser call is a fire-and-forget step: none of them returns a value
the script inspects. -/
inductive GmailStep where
  | configFailsafe (b : Bool)
  | configPauseMs (n : Nat)
  | openUrl (u : String)
  | sleep (secs : Nat)
  | click (x y : Nat)
  | typewrite (s : String)
  | press (k : String)
  | hotkey (k1 k2 : String)
  | printLine (s : String)
deriving DecidableEq, Repr

/-- The module body of Gmail_demo.py, lines 1-38, one step per
statement. -/
def gmail_demo_script : List GmailStep :=
  [.configFailsafe true,
   .configPauseMs 400,
   .openUrl "https://mail.google.com/",
   .sleep 8,
   .click 48 179,
   .sleep 8,
   .typewrite "kishoreicat88@gmail.com",
   .press "enter",
   .sleep 4,
   .press "tab",
   .sleep 8,
   .typewrite "Automated Mail from PyAutoGUI",
   .press "tab",
   .sleep 8,
   .typewrite "Hello,\n\nThis is a test email sent using PyAutoGUI automation.\n\nRegards,\nPython Script",
   .sleep 8,
   .hotkey "ctrl" "enter",
   .printLine "✅ Email sent successfully!"]

/-- Run the script under an environment assigning each step index a GUI
outcome (true when the simulated click or keystroke lands as intended).
The script's control flow never consults the outcome, faithfully to the
source, so env influences nothing; the run yields the printed lines. -/
def runScript (env : Nat → Bool) : Nat → List GmailStep → List String
  | _, [] => []
  | i, s :: rest =>
    match s with
    | .printLine t => t :: runScript env (i + 1) rest
    | _ => runScript env (i + 1) rest

/-- Exit code a step would terminate the process with.  No statement of
Gmail_demo.py calls sys.exit or raises deliberately, so no constructor
maps to an exit. -/
def stepExit : GmailStep → Option Nat
  | .configFailsafe _ => none
  | .configPauseMs _ => none
  | .openUrl _ => none
  | .sleep _ => none
  | .click _ _ => none
  | .typewrite _ => none
  | .press _ => none
  | .hotkey _ _ => none
  | .printLine _ => none

/-- Process exit status of a straight-line script: the first exit a step
performs, else 0 at the end of the module body. -/
def scriptExit (steps : List GmailStep) : Nat :=
  (steps.findSome? stepExit).getD 0

end GmailDemo

namespace GoogleScrape

theorem extractResult_fields {e : Element} {r : SearchResult}
    (h : extractResult e = some r) : r.title ≠ "" ∧ r.link ≠ "" := by
  obtain ⟨h3, own, href⟩ := e
  cases h3 <;> cases own <;> cases href <;>
    simp only [extractResult] at h
  all_goals
    first
    | (split at h
       · injection h with h
         subst h
         simp_all
       · simp at h)
    | simp at h

theorem collectGo_length_le (pageAt : String → Nat → AttemptOutcome)
    (sels : List String) (max_items : Nat) :
    ∀ results : List SearchResult, results.length ≤ max_items →
    (collectGo pageAt sels max_items results).length ≤ max_items := by
  induction sels with
  | nil => intro results h; simpa [collectGo] using h
  | cons sel rest ih =>
    intro results h
    simp only [collectGo]
    have key : ∀ elems : List Element,
        (results ++
          ((elems.take (min elems.length (max_items - results.length))).filterMap
            extractResult)).length ≤ max_items := by
      intro elems
      rw [List.length_append]
      calc results.length +
            ((elems.take (min elems.length (max_items - results.length))).filterMap
              extractResult).length
          ≤ results.length + (max_items - results.length) := by
            refine Nat.add_le_add_left ?_ _
            refine le_trans (List.length_filterMap_le _ _) ?_
            exact le_trans (List.length_take_le _ _) (Nat.min_le_right _ _)
        _ = max_items := Nat.add_sub_cancel' h
    cases hfs : firstSettled (pageAt sel) with
    | none => exact ih results h
    | some o =>
      cases o with
      | raises => exact ih results h
      | waitFailed => exact ih results h
      | found elems =>
        simp only
        split
        · exact key elems
        · exact ih _ (key elems)

theorem collectGo_fields (pageAt : String → Nat → AttemptOutcome)
    (sels : List String) (max_items : Nat) :
    ∀ results : List SearchResult,
    (∀ r ∈ results, r.title ≠ "" ∧ r.link ≠ "") →
    ∀ r ∈ collectGo pageAt sels max_items results,
      r.title ≠ "" ∧ r.link ≠ "" := by
  induction sels with
  | nil => intro results h r hr; exact h r hr
  | cons sel rest ih =>
    intro results h r hr
    simp only [collectGo] at hr
    have key : ∀ elems : List Element, ∀ x,
        x ∈ results ++
          ((elems.take (min elems.length (max_items - results.length))).filterMap
            extractResult) →
        x.title ≠ "" ∧ x.link ≠ "" := by
      intro elems x hx
      rcases List.mem_append.mp hx with hx | hx
      · exact h x hx
      · rcases List.mem_filterMap.mp hx with ⟨e, _, he⟩
        exact extractResult_fields he
    cases hfs : firstSettled (pageAt sel) with
    | none => rw [hfs] at hr; exact ih results h r hr
    | some o =>
      cases o with
      | raises => rw [hfs] at hr; exact ih results h r hr
      | waitFailed => rw [hfs] at hr; exact ih results h r hr
      | found elems =>
        rw [hfs] at hr
        simp only at hr
        split at hr
        · exact key elems r hr
        · exact ih _ (key elems) r hr

/-- The worked dedupe example of spec section 8. -/
def dedupeDemo : List SearchResult :=
  [⟨"A", "x"⟩, ⟨"B", "y"⟩, ⟨"C", "x"⟩]

example : finalDedupe dedupeDemo = [⟨"A", "x"⟩, ⟨"B", "y"⟩] := by decide

/-- C1: the final deduplication step of main returns a sequence no longer
than its input and a sublist of it (hence preserving the relative order
of first occurrences), its links are pairwise distinct and non-empty, and
it carries exactly one entry for each distinct non-empty link of the
input. -/
theorem finalDedupe_correct (l : List SearchResult) (s : String)
    (r : SearchResult) (hs : s ≠ "")
    (hsl : s ∈ l.map SearchResult.link) (hr : r ∈ finalDedupe l) :
    (finalDedupe l).length ≤ l.length ∧
    (finalDedupe l).Sublist l ∧
    ((finalDedupe l).map SearchResult.link).Nodup ∧
    r.link ≠ "" ∧
    ((finalDedupe l).map SearchResult.link).count s = 1 :=
  ⟨dedupeAux_length_le l [], dedupeAux_sublist l [],
   dedupeAux_links_nodup l [],
   (dedupeAux_mem_link l [] r hr).1,
   List.count_eq_one_of_mem (dedupeAux_links_nodup l [])
     (dedupeAux_mem_of_link l [] s hs (by simp) hsl)⟩

theorem finalDedupe_correct_witness :
    (("x" : String) ≠ "" ∧
     "x" ∈ dedupeDemo.map SearchResult.link ∧
     (⟨"A", "x"⟩ : SearchResult) ∈ finalDedupe dedupeDemo) ∧
    ((finalDedupe dedupeDemo).length ≤ dedupeDemo.length ∧
     (finalDedupe dedupeDemo).Sublist dedupeDemo ∧
     ((finalDedupe dedupeDemo).map SearchResult.link).Nodup ∧
     (⟨"A", "x"⟩ : SearchResult).link ≠ "" ∧
     ((finalDedupe dedupeDemo).map SearchResult.link).count "x" = 1) :=
  ⟨⟨by decide, by decide, by decide⟩,
   finalDedupe_correct dedupeDemo "x" ⟨"A", "x"⟩
     (by decide) (by decide) (by decide)⟩

/-- C10: every record of the final dedupe's output occurs verbatim in the
input (the output is a sublist of the input), and is the first occurrence
of its link there: no input record before it carries the same link. -/
theorem finalDedupe_first_occurrence (l : List SearchResult)
    (r : SearchResult) (hr : r ∈ finalDedupe l) :
    (finalDedupe l).Sublist l ∧
    ∃ l₁ l₂, l = l₁ ++ r :: l₂ ∧ ∀ x ∈ l₁, x.link ≠ r.link :=
  ⟨dedupeAux_sublist l [], dedupeAux_first_occurrence l [] r hr⟩

theorem finalDedupe_first_occurrence_witness :
    ((⟨"B", "y"⟩ : SearchResult) ∈ finalDedupe dedupeDemo) ∧
    ((finalDedupe dedupeDemo).Sublist dedupeDemo ∧
     ∃ l₁ l₂, dedupeDemo = l₁ ++ (⟨"B", "y"⟩ : SearchResult) :: l₂ ∧
       ∀ x ∈ l₁, x.link ≠ (⟨"B", "y"⟩ : SearchResult).link) :=
  ⟨by decide, finalDedupe_first_occurrence dedupeDemo ⟨"B", "y"⟩ (by decide)⟩

/-- C2: collect_search_results never returns more than max_items records,
whatever the page reports for any selector on any attempt. -/
theorem collect_search_results_length_le
    (pageAt : String → Nat → AttemptOutcome) (selector_list : List String)
    (max_items : Nat) :
    (collect_search_results pageAt selector_list max_items).length ≤ max_items :=
  collectGo_length_le pageAt selector_list max_items [] (Nat.zero_le _)

/-- A mock page: the first primary selector matches four elements, of
which two yield complete records, one has an empty title and one has no
link; every other selector times out. -/
def demoPage : String → Nat → AttemptOutcome :=
  fun sel _ =>
    if sel = "div.yuRUbf > a" then
      .found [⟨.ok "Result One", .ok "", .ok (some "http://one")⟩,
              ⟨.error (), .ok "Result Two", .ok (some "http://two")⟩,
              ⟨.ok "", .ok "", .ok (some "http://skip")⟩,
              ⟨.ok "No Link", .ok "", .ok none⟩]
    else .waitFailed

example :
    collect_search_results demoPage selectors 12 =
      [⟨"Result One", "http://one"⟩, ⟨"Result Two", "http://two"⟩] := by decide

example : (collect_search_results demoPage selectors 1).length = 1 := by decide

/-- C8: every record returned by collect_search_results has a non-empty
title and a non-empty link. -/
theorem collect_search_results_fields_nonempty
    (pageAt : String → Nat → AttemptOutcome) (selector_list : List String)
    (max_items : Nat) (r : SearchResult)
    (hr : r ∈ collect_search_results pageAt selector_list max_items) :
    r.title ≠ "" ∧ r.link ≠ "" :=
  collectGo_fields pageAt selector_list max_items [] (by simp) r hr

theorem collect_search_results_fields_nonempty_witness :
    ((⟨"Result One", "http://one"⟩ : SearchResult) ∈
      collect_search_results demoPage selectors 12) ∧
    ((⟨"Result One", "http://one"⟩ : SearchResult).title ≠ "" ∧
     (⟨"Result One", "http://one"⟩ : SearchResult).link ≠ "") :=
  ⟨by decide,
   collect_search_results_fields_nonempty demoPage selectors 12
     ⟨"Result One", "http://one"⟩ (by decide)⟩

/-- C3 as stated fails on the code: the merge loop tests membership in
the set of primary links only, computed before the loop and never
updated, so two news results sharing a link are both appended.  With no
primary results and news entries A and B both linking to x, the appended
B entry duplicates a link already present when it is considered. -/
theorem mergeNews_claim_counterexample :
    ¬ mergedNoLaterDup [] [⟨"A", "x"⟩, ⟨"B", "x"⟩] := by
  intro h
  exact h ⟨1, by decide⟩ (by decide) (by decide)

/-- C3 (amended): the merge keeps the primary results as an unchanged
prefix and appends only news results whose link is absent from the
primary results; a news entry is not checked against links appended
earlier from the news list itself. -/
theorem mergeNews_spec (results news_results : List SearchResult)
    (r : SearchResult) (hr : r ∈ mergeNews results news_results) :
    (mergeNews results news_results).take results.length = results ∧
    (r ∈ results ∨
      (r ∈ news_results ∧ r.link ∉ results.map SearchResult.link)) := by
  constructor
  · exact List.take_left results _
  · have hr' : r ∈ results ++ news_results.filter
        (fun x => decide (x.link ∉ results.map SearchResult.link)) := hr
    rcases List.mem_append.mp hr' with h | h
    · exact Or.inl h
    · have hm := List.mem_filter.mp h
      exact Or.inr ⟨hm.1, of_decide_eq_true hm.2⟩

def mergeDemoPrimary : List SearchResult := [⟨"A", "x"⟩]

def mergeDemoNews : List SearchResult := [⟨"B", "x"⟩, ⟨"C", "y"⟩]

theorem mergeNews_spec_witness :
    ((⟨"C", "y"⟩ : SearchResult) ∈ mergeNews mergeDemoPrimary mergeDemoNews) ∧
    ((mergeNews mergeDemoPrimary mergeDemoNews).take mergeDemoPrimary.length =
        mergeDemoPrimary ∧
     ((⟨"C", "y"⟩ : SearchResult) ∈ mergeDemoPrimary ∨
       ((⟨"C", "y"⟩ : SearchResult) ∈ mergeDemoNews ∧
        (⟨"C", "y"⟩ : SearchResult).link ∉
          mergeDemoPrimary.map SearchResult.link))) :=
  ⟨by decide,
   mergeNews_spec mergeDemoPrimary mergeDemoNews ⟨"C", "y"⟩ (by decide)⟩

/-- C4: the augmentation branch of main runs exactly when the primary
collection produced fewer than 6 results; at 6 or more the result list
passes through unchanged and no News-tab attempt is recorded. -/
theorem mainAugment_threshold (results : List SearchResult) (np : NewsPhase) :
    (results.length < 6 ∧ (mainAugment results np).2 = true) ∨
    (6 ≤ results.length ∧ mainAugment results np = (results, false)) := by
  unfold mainAugment
  by_cases h : results.length < 6
  · exact Or.inl ⟨h, by rw [if_pos h]⟩
  · exact Or.inr ⟨Nat.le_of_not_lt h, by rw [if_neg h]⟩

/-- C5: when the URL read and both phrase-locator counts succeed,
is_captcha_page is true exactly when the URL contains the challenge
marker or either phrase locator matched at least one element; with no
marker and zero counts it is false. -/
theorem is_captcha_page_detection (u : Option String) (n m : Nat) :
    is_captcha_page ⟨.ok u, .ok n, .ok m⟩ =
      (strContains (u.getD "") challengeMarker ||
        decide (0 < n) || decide (0 < m)) := by
  unfold is_captcha_page
  by_cases hs : strContains (u.getD "") challengeMarker = true
  · simp [hs]
  · by_cases hn : 0 < n
    · simp [hs, hn]
    · by_cases hm : 0 < m <;> simp [hs, hn, hm]

example :
    is_captcha_page
      ⟨.ok (some ("https://www.google.com" ++ challengeMarker ++ "index")),
       .ok 0, .ok 0⟩ = true := by decide

example :
    is_captcha_page
      ⟨.ok (some "https://www.google.com/search?q=x"), .ok 0, .ok 0⟩ =
      false := by decide

/-- C6: is_captcha_page fails open: a raised URL read, or a raised
phrase-locator count reached with the earlier tests negative, yields
false rather than a propagated exception; the embedding is a total
function, so no run of it can raise. -/
theorem is_captcha_page_fails_open (p : CaptchaPage) (u : Option String)
    (h : p.url = .error () ∨
      (p.url = .ok u ∧ strContains (u.getD "") challengeMarker = false ∧
        (p.robotCount = .error () ∨
          (p.robotCount = .ok 0 ∧ p.trafficCount = .error ())))) :
    is_captcha_page p = false := by
  obtain ⟨url, rc, tc⟩ := p
  rcases h with h | ⟨hu, hs, h2⟩
  · dsimp only at h
    subst h
    rfl
  · dsimp only at hu hs
    subst hu
    have hns : ¬ (strContains (u.getD "") challengeMarker = true) := by
      simp [hs]
    rcases h2 with h2 | ⟨hrc, htc⟩
    · dsimp only at h2
      subst h2
      simp only [is_captcha_page]
      rw [if_neg hns]
    · dsimp only at hrc htc
      subst hrc
      subst htc
      simp only [is_captcha_page]
      rw [if_neg hns]
      decide

/-- A page handle on which the URL read itself raises. -/
def rawErrorPage : CaptchaPage := ⟨.error (), .ok 0, .ok 0⟩

theorem is_captcha_page_fails_open_witness :
    (rawErrorPage.url = .error () ∨
      (rawErrorPage.url = .ok none ∧
        strContains ((none : Option String).getD "") challengeMarker = false ∧
        (rawErrorPage.robotCount = .error () ∨
          (rawErrorPage.robotCount = .ok 0 ∧
           rawErrorPage.trafficCount = .error ())))) ∧
    is_captcha_page rawErrorPage = false :=
  ⟨Or.inl rfl, is_captcha_page_fails_open rawErrorPage none (Or.inl rfl)⟩

/-- C7: prompt_manual_solve exits the process with status 1 (non-zero)
on a KeyboardInterrupt during the blocking prompt, and returns control
to the caller on a normal acknowledgment. -/
theorem prompt_manual_solve_behavior :
    (prompt_manual_solve (.error ()) = .exited 1 ∧ (1 : Nat) ≠ 0) ∧
    prompt_manual_solve (.ok ()) = .resumed :=
  ⟨⟨rfl, by decide⟩, rfl⟩

end GoogleScrape

namespace GmailDemo

/-- C9: the mail sender prints its success line as its only output on
every run, independent of the per-step GUI outcomes, which no branch
inspects; and no step can terminate the process, so the exit status is
the implicit 0. -/
theorem gmail_demo_unconditional_success (env env' : Nat → Bool) :
    runScript env 0 gmail_demo_script = ["✅ Email sent successfully!"] ∧
    runScript env 0 gmail_demo_script = runScript env' 0 gmail_demo_script ∧
    scriptExit gmail_demo_script = 0 :=
  ⟨rfl, rfl, rfl⟩

end GmailDemo
